import Mathlib

/-!
Verification development for the SFL blog-planning system.

The repository ships a Streamlit UI (`streamlit_app.py`) that drives a
retrieval-augmented-generation engine `BlogPlanningRAG` (two operations:
`build_index` and `plan_blog`).  The engine module itself is not part of the
visible sources, so its data model and operations are modelled faithfully from
the specification; the UI glue (session state, button handlers, the fields the
UI reads from a returned plan) is embedded from `streamlit_app.py` directly.
-/

namespace SFL

/-- Error taxonomy of the engine, from spec section 7. -/
inductive RagError where
  | dataFormat
  | embedding (batch : Nat)
  | invalidQuery
  | consistency
  | notReady
deriving DecidableEq, Repr

/-- Failure modes of the remote generation backend; `noCredential` stands for
the backend never being called because no credential was configured. -/
inductive GenError where
  | noCredential
  | timeout
  | authFailure
  | malformedResponse
deriving DecidableEq, Repr

/-- Modelled from the spec: one row of the tabular data source (section 6),
with the optional columns defaulted as in section 3. -/
structure RawRow where
  title : String
  subtitle : Option String := none
  content : Option String := none
  reading_time : Nat := 0
  engagement : Nat := 0
  url : Option String := none
deriving DecidableEq, Repr

/-- Modelled from the spec: an abstract tabular data file.  `parsesAsTable`
and `hasTitleColumn` record whether the file can be parsed as tabular data and
whether the required title-equivalent column is present (section 4.1). -/
structure DataFile where
  parsesAsTable : Bool
  hasTitleColumn : Bool
  rows : List RawRow
deriving DecidableEq, Repr

/-- Modelled from the spec: one ingested entry (section 3).  `text` is the
newline-joined title, subtitle and content used for embedding. -/
structure ArticleRecord where
  id : Nat
  title : String
  subtitle : Option String
  text : String
  reading_time : Nat
  engagement : Nat
  url : Option String
deriving DecidableEq, Repr

/-- Total replacement for `Option.getD` on strings, so that missing optional
fields collapse to the empty string. -/
def orEmpty : Option String → String
  | none => ""
  | some s => s

/-- Whitespace stripping as performed by the Python `str.strip` used in the
source and, per spec section 4.2, by the text preprocessing: removes leading
and trailing whitespace characters. -/
def strip (s : String) : String :=
  ⟨((s.data.dropWhile Char.isWhitespace).reverse.dropWhile
      Char.isWhitespace).reverse⟩

/-- Modelled from the spec: the deterministic composition of title, subtitle
and content into the text that is embedded (sections 3 and 4.2; the design
notes fix newline-joined fields as the convention). -/
def recordText (title : String) (subtitle content : Option String) : String :=
  title ++ "\n" ++ orEmpty subtitle ++ "\n" ++ orEmpty content

/-- Modelled from the spec: turn a raw row into an `ArticleRecord` with the
given load-order id. -/
def mkRecord (i : Nat) (r : RawRow) : ArticleRecord :=
  ⟨i, r.title, r.subtitle, recordText r.title r.subtitle r.content,
    r.reading_time, r.engagement, r.url⟩

/-- Modelled from the spec: the Corpus Loader (section 4.1).  Fails with
`DataFormatError` when the file is not tabular or lacks the title column;
drops rows with an empty or whitespace-only title; assigns ids in load
order. -/
def load (df : DataFile) : Except RagError (List ArticleRecord) :=
  if df.parsesAsTable && df.hasTitleColumn then
    .ok (((df.rows.filter fun r => strip r.title != "").enum).map
      fun p => mkRecord p.1 p.2)
  else
    .error .dataFormat

/-- Dimensionality of the local fallback embedding backend. -/
def embedDim : Nat := 8

/-- Modelled from the spec: the local deterministic fallback embedding backend
(section 4.2), a hashing projection: component `i` counts the characters of
the trimmed text whose code point is congruent to `i` modulo the dimension.
It is deterministic, has fixed dimension, and maps empty text to the zero
vector rather than erroring. -/
def embed (text : String) : List ℤ :=
  (List.range embedDim).map fun i =>
    ((((strip text).data.filter fun c => c.toNat % embedDim == i).length : ℤ))

/-- Dot product of two embedding vectors. -/
def dot (u v : List ℤ) : ℤ := (List.zipWith (fun a b => a * b) u v).sum

/-- Modelled from the spec: the similarity metric of the Vector Index
(section 4.3).  The design notes leave the exact normalization open as long as
one convention is fixed; we use the squared cosine, a monotone transform of
cosine similarity on the nonnegative count vectors produced by the fallback
embedder, which stays inside ℚ and lies in the interval from 0 to 1. -/
def sim (u v : List ℤ) : ℚ :=
  if dot u u * dot v v = 0 then 0 else
    Rat.divInt (dot u v ^ 2) (dot u u * dot v v)

/-- Worker for `toBatches`: `acc` is the current batch in reverse order and
`c` the remaining capacity of that batch before a new one is started. -/
def toBatchesGo (b : Nat) : List α → List α → Nat → List (List α)
  | [], acc, _ => [acc.reverse]
  | x :: xs, acc, 0 => acc.reverse :: toBatchesGo b xs [x] (b - 1)
  | x :: xs, acc, c + 1 => toBatchesGo b xs (x :: acc) c

/-- Modelled from the spec: partition a list into consecutive groups of at
most `b` elements (section 4.2: batching), never reordering elements.  A
batch size of zero is treated as one so the partition always progresses. -/
def toBatches (b : Nat) : List α → List (List α)
  | [] => []
  | x :: xs => toBatchesGo (max b 1) xs [x] (max b 1 - 1)

/-- Modelled from the spec: a batch fails persistently when both the first
attempt and the one retry fail (section 4.2).  `fail i a` tells whether
attempt `a` on batch `i` errors. -/
def batchFails (fail : Nat → Nat → Bool) (i : Nat) : Bool :=
  fail i 0 && fail i 1

/-- Modelled from the spec: the batched Embedder (section 4.2).  Texts are
partitioned into consecutive batches; the first batch that fails persistently
aborts the whole embedding with `EmbeddingError` naming that batch; otherwise
every batch is embedded in order and the groups are concatenated, never
reordering results. -/
def embedBatched (fail : Nat → Nat → Bool) (b : Nat) (texts : List String) :
    Except RagError (List (List ℤ)) :=
  let batches := toBatches b texts
  match (List.range batches.length).find? (batchFails fail) with
  | some i => .error (.embedding i)
  | none => .ok (batches.map fun batch => batch.map embed).flatten

/-- Modelled from the spec: the built artifact (section 3): the ordered
records paired with their embedding vectors. -/
structure Index where
  entries : List (ArticleRecord × List ℤ)
deriving DecidableEq, Repr

/-- Modelled from the spec: one retrieval result (section 3). -/
structure RetrievalResult where
  record : ArticleRecord
  similarity : ℚ
deriving DecidableEq, Repr

/-- Modelled from the spec: the ordering of retrieval results (sections 3 and
4.3): descending similarity, ties broken by ascending id. -/
def RankLE (a b : RetrievalResult) : Prop :=
  b.similarity < a.similarity ∨
    (a.similarity = b.similarity ∧ a.record.id ≤ b.record.id)

instance : DecidableRel RankLE := fun a b =>
  inferInstanceAs (Decidable (_ ∨ _))

instance : IsTotal RetrievalResult RankLE where
  total a b := by
    rcases lt_trichotomy a.similarity b.similarity with h | h | h
    · exact .inr (.inl h)
    · rcases Nat.le_total a.record.id b.record.id with h2 | h2
      · exact .inl (.inr ⟨h, h2⟩)
      · exact .inr (.inr ⟨h.symm, h2⟩)
    · exact .inl (.inl h)

instance : IsTrans RetrievalResult RankLE where
  trans a b c hab hbc := by
    rcases hab with h1 | ⟨e1, i1⟩
    · rcases hbc with h2 | ⟨e2, _⟩
      · exact .inl (h2.trans h1)
      · exact .inl (e2 ▸ h1)
    · rcases hbc with h2 | ⟨e2, i2⟩
      · exact .inl (e1 ▸ h2)
      · exact .inr ⟨e1.trans e2, i1.trans i2⟩

/-- Modelled from the spec: Vector Index search (section 4.3).  Scores every
stored vector against the query, sorts descending by similarity with ties by
ascending id (exact search, acceptable at the stated corpus scale), and
returns the top `k`, clamped to the record count. -/
def search (idx : Index) (q : List ℤ) (k : Nat) : List RetrievalResult :=
  ((idx.entries.map fun p => RetrievalResult.mk p.1 (sim q p.2)).insertionSort
    RankLE).take k

/-- Modelled from the spec: the Retriever (section 4.4), over an arbitrary
embedding function `e`.  Rejects an empty or whitespace-only topic with
`InvalidQueryError` before any embedding; refuses an index whose vector
dimensionality differs from the query embedding with `ConsistencyError`;
otherwise delegates to `search`. -/
def retrieve (e : String → List ℤ) (idx : Index) (topic : String) (k : Nat) :
    Except RagError (List RetrievalResult) :=
  if strip topic == "" then .error .invalidQuery
  else
    if idx.entries.all fun p => p.2.length == (e topic).length then
      .ok (search idx (e topic) k)
    else
      .error .consistency

/-- The per-reference view exposed by a `Plan` (spec section 3): the UI in
`streamlit_app.py` reads title, subtitle, reading_time, claps (the engagement
metric), similarity and url from each reference. -/
structure RefView where
  title : String
  subtitle : Option String
  reading_time : Nat
  claps : Nat
  similarity : ℚ
  url : Option String
deriving DecidableEq, Repr

/-- View of a retrieval result as consumed by the UI; the engagement field of
the record is exposed under the key `claps`. -/
def mkRefView (r : RetrievalResult) : RefView :=
  ⟨r.record.title, r.record.subtitle, r.record.reading_time,
    r.record.engagement, r.similarity, r.record.url⟩

/-- The sentinel value of the `model` field marking fallback generation, as
tested by `streamlit_app.py`. -/
def fallbackSentinel : String := "fallback"

/-- Name of the generation backend reported on successful generation. -/
def geminiModelName : String := "gemini-2.5-flash"

/-- Modelled from the spec: the Plan output object (section 3).
`generated_plan` and `suggested_title` are `none` exactly when they are
omitted from the returned mapping. -/
structure Plan where
  topic : String
  num_references : Nat
  references : List RefView
  generated_plan : Option String
  suggested_title : Option String
  model : String
deriving DecidableEq, Repr

/-- Modelled from the spec: the engine facade state (section 4.6):
configuration fixed at construction plus the optional built index
(`none` is the Unindexed state, `some` the Indexed state). -/
structure BlogPlanningRAG where
  embedding_batch_size : Nat
  use_gemini : Bool
  index : Option Index
deriving DecidableEq, Repr

/-- Modelled from the spec: engine construction (section 4.6); a fresh engine
starts in the Unindexed state. -/
def BlogPlanningRAG.init (batch : Nat) (useGemini : Bool) : BlogPlanningRAG :=
  ⟨batch, useGemini, none⟩

/-- Modelled from the spec: the build phase (sections 4.1 to 4.3): load the
corpus, embed every record text in batches, and assemble the index.  A load
or embedding failure aborts with the corresponding error and no index is
produced. -/
def buildIndexFile (fail : Nat → Nat → Bool) (b : Nat) (df : DataFile) :
    Except RagError Index :=
  match load df with
  | .error e => .error e
  | .ok recs =>
    match embedBatched fail b (recs.map fun r => r.text) with
    | .error e => .error e
    | .ok vecs => .ok ⟨recs.zip vecs⟩

/-- Modelled from the spec: `build_index` on the engine facade (section 4.6).
On success the previous index, if any, is atomically replaced by the new one;
on failure the error propagates and no engine state is produced. -/
def build_index (fail : Nat → Nat → Bool) (e : BlogPlanningRAG) (df : DataFile) :
    Except RagError BlogPlanningRAG :=
  (buildIndexFile fail e.embedding_batch_size df).map
    fun idx => { e with index := some idx }

/-- Modelled from the spec: `plan_blog` (sections 4.4 to 4.6).  Fails with
`NotReadyError` in the Unindexed state; composes the Retriever and the Plan
Generator; a generation outcome `gen` is consulted only when the generative
backend is enabled, any generation error degrades to the fallback plan with
`generated_plan` and `suggested_title` omitted and `model` set to the
fallback sentinel.  `num_sections` is a prompt hint consumed by the backend
that produced `gen`. -/
def plan_blog (e : BlogPlanningRAG) (gen : Except GenError (String × String))
    (topic : String) (num_references num_sections : Nat) :
    Except RagError Plan :=
  match e.index with
  | none => .error .notReady
  | some idx =>
    match retrieve embed idx topic num_references with
    | .error err => .error err
    | .ok results =>
      let refs := results.map mkRefView
      match (if e.use_gemini then gen else .error .noCredential) with
      | .ok pt =>
        .ok ⟨topic, refs.length, refs, some pt.1, some pt.2, geminiModelName⟩
      | .error _ =>
        .ok ⟨topic, refs.length, refs, none, none, fallbackSentinel⟩

/-- Session state of the Streamlit UI (`streamlit_app.py` lines 26 to 31):
the engine handle and the index-built flag. -/
structure SessionState where
  rag_system : Option BlogPlanningRAG
  index_built : Bool
deriving DecidableEq, Repr

/-- Initial session state of the UI. -/
def initialSession : SessionState := ⟨none, false⟩

/-- Engine construction as wired by the UI (`streamlit_app.py` lines 105 to
109): the generative backend is enabled exactly when the GEMINI_API_KEY
environment variable is present. -/
def constructEngine (batch_size : Nat) (api_key : Option String) :
    BlogPlanningRAG :=
  BlogPlanningRAG.init batch_size api_key.isSome

/-- The Build Index button handler (`streamlit_app.py` lines 102 to 122): a
fresh engine is constructed per attempt and assigned into session state only
after `build_index` returns without raising; on failure the session state is
left untouched and the error is merely displayed. -/
def buildButtonHandler (fail : Nat → Nat → Bool) (batch_size : Nat)
    (api_key : Option String) (df : DataFile) (s : SessionState) :
    SessionState :=
  match build_index fail (constructEngine batch_size api_key) df with
  | .ok rag => ⟨some rag, true⟩
  | .error _ => s

instance {ε α : Type _} [DecidableEq ε] [DecidableEq α] :
    DecidableEq (Except ε α) := fun x y =>
  match x, y with
  | .error a, .error b =>
    if h : a = b then .isTrue (by simpa using h) else .isFalse (by simp [h])
  | .error _, .ok _ => .isFalse (by simp)
  | .ok _, .error _ => .isFalse (by simp)
  | .ok a, .ok b =>
    if h : a = b then .isTrue (by simpa using h) else .isFalse (by simp [h])

/-- Outcome of pressing the Generate Plan button: either the empty-topic
warning, or the displayed result of `plan_blog` (errors are caught and
rendered, never re-raised). -/
inductive GenerateOutcome where
  | warned
  | planned (result : Except RagError Plan)
deriving DecidableEq, Repr

/-- The Generate Plan button handler (`streamlit_app.py` lines 153 to 165):
when the topic is empty or strips to the empty string, a warning is shown and
`plan_blog` is not called; otherwise `plan_blog` runs and its result is
displayed. -/
def generateClickHandler (gen : Except GenError (String × String))
    (e : BlogPlanningRAG) (topic : String) (num_refs num_sections : Nat) :
    GenerateOutcome :=
  if topic == "" || strip topic == "" then .warned
  else .planned (plan_blog e gen topic num_refs num_sections)

/-- A failure model in which every embedding attempt succeeds. -/
def noFail : Nat → Nat → Bool := fun _ _ => false

/-- Sample corpus rows used to exercise the model on concrete inputs; the
second row has a whitespace-only title and is dropped by the loader. -/
def sampleRows : List RawRow :=
  [⟨"Deep Learning", some ("Intro"), some ("neural nets"), 7, 120,
      some ("http://a")⟩,
   ⟨"  ", none, none, 3, 5, none⟩,
   ⟨"Cooking Pasta", none, some ("boil water"), 4, 30, none⟩,
   ⟨"Machine Learning", some ("Basics"), none, 6, 80, none⟩]

/-- A sample well-formed data file with three loadable records. -/
def sampleDF : DataFile := ⟨true, true, sampleRows⟩

/-- A sample data file whose required title column is missing, so that
loading it fails with `DataFormatError`. -/
def badDF : DataFile := ⟨true, false, sampleRows⟩

/-- A sample data file with an empty record set. -/
def emptyDF : DataFile := ⟨true, true, []⟩

/-- The index built from the sample data file. -/
def sampleIdx : Index :=
  match buildIndexFile noFail 8 sampleDF with
  | .ok i => i
  | .error _ => ⟨[]⟩

/-- An indexed sample engine with the generative backend enabled. -/
def sampleEngine : BlogPlanningRAG := ⟨8, true, some sampleIdx⟩

theorem toBatchesGo_flatten (b : Nat) :
    ∀ (xs acc : List α) (c : Nat),
      (toBatchesGo b xs acc c).flatten = acc.reverse ++ xs
  | [], acc, c => by simp [toBatchesGo]
  | x :: xs, acc, 0 => by
    simp [toBatchesGo, toBatchesGo_flatten b xs [x] (b - 1)]
  | x :: xs, acc, c + 1 => by
    simp [toBatchesGo, toBatchesGo_flatten b xs (x :: acc) c]

theorem toBatches_flatten (b : Nat) (l : List α) :
    (toBatches b l).flatten = l := by
  cases l with
  | nil => simp [toBatches]
  | cons x xs => simpa [toBatches] using toBatchesGo_flatten (max b 1) xs [x] _

theorem embedBatched_ok {fail : Nat → Nat → Bool} {b : Nat}
    {texts : List String} {vecs : List (List ℤ)}
    (h : embedBatched fail b texts = .ok vecs) : vecs = texts.map embed := by
  unfold embedBatched at h
  cases hf : (List.range (toBatches b texts).length).find? (batchFails fail) with
  | some i => simp [hf] at h
  | none =>
    simp only [hf] at h
    injection h with h
    subst h
    rw [← List.map_flatten, toBatches_flatten]

theorem dot_nil_right (u : List ℤ) : dot u [] = 0 := by
  cases u <;> simp [dot]

theorem dot_cons (a b : ℤ) (u v : List ℤ) :
    dot (a :: u) (b :: v) = a * b + dot u v := by
  simp [dot]

theorem dot_self_nonneg (u : List ℤ) : 0 ≤ dot u u := by
  induction u with
  | nil => simp [dot]
  | cons a u ih =>
    rw [dot_cons]
    nlinarith [mul_self_nonneg a]

theorem dot_sq_le (u : List ℤ) : ∀ v : List ℤ, dot u v ^ 2 ≤ dot u u * dot v v := by
  induction u with
  | nil => intro v; simp [dot]
  | cons a u ih =>
    intro v
    cases v with
    | nil => simp [dot_nil_right]
    | cons b v =>
      have h := ih v
      have hU := dot_self_nonneg u
      have hV := dot_self_nonneg v
      rw [dot_cons, dot_cons, dot_cons]
      rcases hV.eq_or_lt with hV0 | hVpos
      · have hD : dot u v = 0 := by
          have h2 : dot u v ^ 2 ≤ 0 := by nlinarith
          nlinarith [sq_nonneg (dot u v)]
        rw [hD, ← hV0]
        nlinarith [mul_nonneg hU (mul_self_nonneg b)]
      · nlinarith [sq_nonneg (a * dot v v - b * dot u v),
          mul_nonneg (mul_self_nonneg b) (sub_nonneg.2 h),
          mul_nonneg hV (sub_nonneg.2 h)]

theorem sim_nonneg (u v : List ℤ) : 0 ≤ sim u v := by
  unfold sim
  split
  · exact le_refl 0
  · exact Rat.divInt_nonneg (sq_nonneg _)
      (mul_nonneg (dot_self_nonneg u) (dot_self_nonneg v))

theorem sim_le_one (u v : List ℤ) : sim u v ≤ 1 := by
  unfold sim
  split
  · exact zero_le_one
  · rename_i h
    have hpos : 0 < dot u u * dot v v :=
      lt_of_le_of_ne (mul_nonneg (dot_self_nonneg u) (dot_self_nonneg v))
        (Ne.symm h)
    have h1 : (1 : ℚ) = Rat.divInt 1 1 := by decide
    rw [h1, Rat.divInt_le_divInt hpos one_pos]
    simpa using dot_sq_le u v

theorem embed_length (t : String) : (embed t).length = embedDim := by
  simp [embed]

theorem load_ids_nodup {df : DataFile} {recs : List ArticleRecord}
    (h : load df = .ok recs) : (recs.map fun r => r.id).Nodup := by
  unfold load at h
  split at h
  · injection h with h
    subst h
    have hcomp : ((fun r : ArticleRecord => r.id) ∘
        fun p : Nat × RawRow => mkRecord p.1 p.2) = Prod.fst := by
      funext p
      rfl
    rw [List.map_map, hcomp, List.enum_map_fst]
    exact List.nodup_range _
  · simp at h

theorem buildIndexFile_ok {fail : Nat → Nat → Bool} {b : Nat} {df : DataFile}
    {idx : Index} (h : buildIndexFile fail b df = .ok idx) :
    ∃ recs, load df = .ok recs ∧
      idx.entries = recs.zip ((recs.map fun r => r.text).map embed) ∧
      idx.entries.length = recs.length := by
  unfold buildIndexFile at h
  cases hl : load df with
  | error e => simp [hl] at h
  | ok recs =>
    simp only [hl] at h
    cases he : embedBatched fail b (recs.map fun r => r.text) with
    | error e => simp [he] at h
    | ok vecs =>
      simp only [he] at h
      injection h with h
      subst h
      refine ⟨recs, rfl, ?_, ?_⟩
      · rw [embedBatched_ok he]
      · rw [embedBatched_ok he]
        simp [List.length_zip]

theorem entries_dim {fail : Nat → Nat → Bool} {b : Nat} {df : DataFile}
    {idx : Index} (h : buildIndexFile fail b df = .ok idx) :
    ∀ p ∈ idx.entries, p.2.length = embedDim := by
  obtain ⟨recs, _, hent, _⟩ := buildIndexFile_ok h
  intro p hp
  rw [hent] at hp
  obtain ⟨-, hv⟩ := List.mem_zip hp
  obtain ⟨t, -, hte⟩ := List.mem_map.mp hv
  rw [← hte]
  exact embed_length t

theorem entries_ids {fail : Nat → Nat → Bool} {b : Nat} {df : DataFile}
    {idx : Index} (h : buildIndexFile fail b df = .ok idx) :
    (idx.entries.map fun p => p.1.id).Nodup := by
  obtain ⟨recs, hl, hent, hlen⟩ := buildIndexFile_ok h
  have hfst : idx.entries.map Prod.fst = recs := by
    rw [hent]
    exact List.map_fst_zip _ _ (by simp)
  have h2 : (idx.entries.map fun p => p.1.id)
      = (idx.entries.map Prod.fst).map fun r => r.id := by
    simp [List.map_map, Function.comp]
  rw [h2, hfst]
  exact load_ids_nodup hl

theorem retrieve_built {fail : Nat → Nat → Bool} {b : Nat} {df : DataFile}
    {idx : Index} (topic : String) (k : Nat)
    (h : buildIndexFile fail b df = .ok idx) (ht : strip topic ≠ "") :
    retrieve embed idx topic k = .ok (search idx (embed topic) k) := by
  unfold retrieve
  rw [if_neg (by simpa using ht), if_pos]
  rw [List.all_eq_true]
  intro p hp
  simp [entries_dim h p hp, embed_length]

theorem search_length (idx : Index) (q : List ℤ) (k : Nat) :
    (search idx q k).length = min k idx.entries.length := by
  simp [search]

theorem search_sorted (idx : Index) (q : List ℤ) (k : Nat) :
    (search idx q k).Pairwise RankLE :=
  List.Pairwise.sublist (List.take_sublist _ _)
    (List.sorted_insertionSort RankLE _)

theorem mem_search {idx : Index} {q : List ℤ} {k : Nat} {r : RetrievalResult}
    (h : r ∈ search idx q k) :
    ∃ p ∈ idx.entries, r = RetrievalResult.mk p.1 (sim q p.2) := by
  have h2 := List.take_subset _ _ h
  rw [List.mem_insertionSort] at h2
  obtain ⟨p, hp, rfl⟩ := List.mem_map.mp h2
  exact ⟨p, hp, rfl⟩

theorem search_ids_nodup {fail : Nat → Nat → Bool} {b : Nat} {df : DataFile}
    {idx : Index} (q : List ℤ) (k : Nat)
    (h : buildIndexFile fail b df = .ok idx) :
    ((search idx q k).map fun r => r.record.id).Nodup := by
  have hscored : ((idx.entries.map fun p => RetrievalResult.mk p.1 (sim q p.2)).map
      fun r => r.record.id) = idx.entries.map fun p => p.1.id := by
    simp [List.map_map, Function.comp]
  have hperm := (List.perm_insertionSort RankLE
    (idx.entries.map fun p => RetrievalResult.mk p.1 (sim q p.2))).map
    fun r => r.record.id
  have hnodup : (((idx.entries.map fun p => RetrievalResult.mk p.1 (sim q p.2)).insertionSort
      RankLE).map fun r => r.record.id).Nodup := by
    refine hperm.nodup_iff.mpr ?_
    rw [hscored]
    exact entries_ids h
  have hsub : (search idx q k).Sublist
      ((idx.entries.map fun p => RetrievalResult.mk p.1 (sim q p.2)).insertionSort
        RankLE) :=
    List.take_sublist _ _
  exact List.Nodup.sublist (hsub.map fun r => r.record.id) hnodup

theorem retrieve_ok_elim {e : String → List ℤ} {idx : Index} {topic : String}
    {k : Nat} {rs : List RetrievalResult}
    (h : retrieve e idx topic k = .ok rs) :
    rs = search idx (e topic) k ∧ strip topic ≠ "" := by
  unfold retrieve at h
  split at h
  · simp at h
  · rename_i hb
    split at h
    · injection h with h
      exact ⟨h.symm, by simpa using hb⟩
    · simp at h

theorem plan_blog_fallback_eq {e : BlogPlanningRAG} {idx : Index}
    {gen : Except GenError (String × String)} {err : GenError} {topic : String}
    {k s : Nat} {rs : List RetrievalResult}
    (hidx : e.index = some idx)
    (hg : (if e.use_gemini then gen else Except.error GenError.noCredential)
      = .error err)
    (hr : retrieve embed idx topic k = .ok rs) :
    plan_blog e gen topic k s
      = .ok ⟨topic, rs.length, rs.map mkRefView, none, none, fallbackSentinel⟩ := by
  unfold plan_blog
  simp only [hidx, hr, hg, List.length_map]

/-- C1: every successful `plan_blog` call returns a `Plan` whose `topic`
echoes the input topic, whose `num_references` equals the length of
`references` and is at most the requested count, and whose `references` are
exactly the `mkRefView` views of the retrieval results, i.e. objects exposing
title, subtitle, reading_time, the engagement metric (under the key `claps`
read by the UI), similarity and url. -/
theorem plan_blog_output_contract (e : BlogPlanningRAG)
    (gen : Except GenError (String × String)) (topic : String) (k s : Nat)
    (p : Plan) (h : plan_blog e gen topic k s = .ok p) :
    p.topic = topic ∧ p.num_references = p.references.length ∧
      p.num_references ≤ k ∧
      ∃ idx rs, e.index = some idx ∧ retrieve embed idx topic k = .ok rs ∧
        p.references = rs.map mkRefView := by
  unfold plan_blog at h
  cases hidx : e.index with
  | none => simp [hidx] at h
  | some idx =>
    simp only [hidx] at h
    cases hr : retrieve embed idx topic k with
    | error err => simp [hr] at h
    | ok rs =>
      simp only [hr] at h
      have hlen : rs.length ≤ k := by
        rw [(retrieve_ok_elim hr).1, search_length]
        exact Nat.min_le_left k idx.entries.length
      cases hg : (if e.use_gemini then gen else Except.error GenError.noCredential) with
      | ok pt =>
        simp only [hg] at h
        injection h with h
        subst h
        exact ⟨rfl, by simp, by simpa using hlen, idx, rs, rfl, hr, rfl⟩
      | error ge =>
        simp only [hg] at h
        injection h with h
        subst h
        exact ⟨rfl, by simp, by simpa using hlen, idx, rs, rfl, hr, rfl⟩

/-- Witness for C1 on the sample engine: a concrete successful call whose
plan satisfies the stated contract. -/
theorem plan_blog_output_contract_witness :
    (sampleEngine.index = some sampleIdx) ∧
    ((plan_blog sampleEngine (.ok (("plan text"), ("A Title"))) ("learning") 2 5).isOk
      = true) ∧
    ∀ p, plan_blog sampleEngine (.ok (("plan text"), ("A Title"))) ("learning") 2 5
        = .ok p →
      p.topic = ("learning") ∧ p.num_references = p.references.length ∧
        p.num_references ≤ 2 ∧
        ∃ idx rs, sampleEngine.index = some idx ∧
          retrieve embed idx ("learning") 2 = .ok rs ∧
          p.references = rs.map mkRefView :=
  ⟨rfl, by decide, fun p h =>
    plan_blog_output_contract sampleEngine (.ok (("plan text"), ("A Title")))
      ("learning") 2 5 p h⟩

/-- C2: on an indexed engine built over a nonempty corpus, a generation
backend failure never propagates: `plan_blog` still returns a `Plan` whose
`model` is the fallback sentinel, with `generated_plan` and `suggested_title`
omitted, and whose `references` are non-empty of length
`min num_references N` for a corpus of `N` records. -/
theorem plan_blog_generation_fallback (fail : Nat → Nat → Bool)
    (e e₂ : BlogPlanningRAG) (df : DataFile) (err : GenError) (topic : String)
    (k s : Nat) (idx : Index)
    (hb : build_index fail e df = .ok e₂) (hidx : e₂.index = some idx)
    (ht : strip topic ≠ "") (hk : 1 ≤ k) (hN : 1 ≤ idx.entries.length) :
    ∃ p, plan_blog e₂ (.error err) topic k s = .ok p ∧
      p.model = fallbackSentinel ∧ p.generated_plan = none ∧
      p.suggested_title = none ∧
      p.references.length = min k idx.entries.length ∧
      p.references ≠ [] := by
  have hbf : buildIndexFile fail e.embedding_batch_size df = .ok idx := by
    unfold build_index at hb
    cases hf : buildIndexFile fail e.embedding_batch_size df with
    | error e3 => simp [hf, Except.map] at hb
    | ok idx2 =>
      simp only [hf, Except.map] at hb
      injection hb with hb
      rw [← hb] at hidx
      simp only at hidx
      injection hidx with hidx
      rw [hidx]
  have hr := retrieve_built topic k hbf ht
  have hg : (if e₂.use_gemini then
        (Except.error err : Except GenError (String × String))
      else Except.error GenError.noCredential)
      = Except.error (if e₂.use_gemini then err else GenError.noCredential) := by
    cases e₂.use_gemini <;> simp
  refine ⟨_, plan_blog_fallback_eq hidx hg hr, rfl, rfl, rfl, ?_, ?_⟩
  · simp [search_length]
  · intro hnil
    have hnil2 : search idx (embed topic) k = [] := by
      simpa using hnil
    have hlen := search_length idx (embed topic) k
    rw [hnil2] at hlen
    simp at hlen
    omega

/-- Witness for C2: on the sample engine a timeout in the generation backend
still yields a fallback plan with both references. -/
theorem plan_blog_generation_fallback_witness :
    ∃ p, plan_blog
        { embedding_batch_size := 8, use_gemini := true,
          index := some sampleIdx }
        (.error GenError.timeout) ("learning") 2 5 = .ok p ∧
      p.model = fallbackSentinel ∧ p.generated_plan = none ∧
      p.suggested_title = none ∧
      p.references.length = min 2 sampleIdx.entries.length ∧
      p.references ≠ [] :=
  plan_blog_generation_fallback noFail (BlogPlanningRAG.init 8 true)
    { embedding_batch_size := 8, use_gemini := true, index := some sampleIdx }
    sampleDF GenError.timeout ("learning") 2 5 sampleIdx (by decide) rfl
    (by decide) (by decide) (by decide)

/-- C3: a freshly constructed engine is Unindexed; `plan_blog` in the
Unindexed state always fails with `NotReadyError`; and after a successful
`build_index` the engine is Indexed and `plan_blog` can no longer fail with
`NotReadyError`. -/
theorem plan_blog_state_machine (b : Nat) (g : Bool) (fail : Nat → Nat → Bool)
    (e : BlogPlanningRAG) (df : DataFile)
    (gen : Except GenError (String × String)) (topic : String) (k s : Nat) :
    (BlogPlanningRAG.init b g).index = none ∧
    (e.index = none → plan_blog e gen topic k s = .error .notReady) ∧
    (∀ e₂, build_index fail e df = .ok e₂ → e₂.index ≠ none ∧
      plan_blog e₂ gen topic k s ≠ .error .notReady) := by
  refine ⟨rfl, fun hnone => by unfold plan_blog; rw [hnone], fun e₂ hb => ?_⟩
  have hidx : ∃ idx, e₂.index = some idx := by
    unfold build_index at hb
    cases hf : buildIndexFile fail e.embedding_batch_size df with
    | error e3 => simp [hf, Except.map] at hb
    | ok idx =>
      simp only [hf, Except.map] at hb
      injection hb with hb
      exact ⟨idx, by rw [← hb]⟩
  obtain ⟨idx, hidx⟩ := hidx
  refine ⟨by simp [hidx], ?_⟩
  unfold plan_blog
  simp only [hidx]
  cases hr : retrieve embed idx topic k with
  | error err =>
    have : err ≠ RagError.notReady := by
      unfold retrieve at hr
      split at hr
      · injection hr with hr
        rw [← hr]
        simp
      · split at hr
        · simp at hr
        · injection hr with hr
          rw [← hr]
          simp
    simp [this]
  | ok rs =>
    cases hg : (if e₂.use_gemini then gen else Except.error GenError.noCredential) with
    | ok pt => simp
    | error ge => simp

/-- Witness for C3 at concrete inputs: the fresh engine rejects planning and
the engine built from the sample file accepts it. -/
theorem plan_blog_state_machine_witness :
    (BlogPlanningRAG.init 8 true).index = none ∧
    ((BlogPlanningRAG.init 8 true).index = none →
      plan_blog (BlogPlanningRAG.init 8 true) (.error GenError.timeout)
        ("learning") 2 5 = .error .notReady) ∧
    (∀ e₂, build_index noFail (BlogPlanningRAG.init 8 true) sampleDF = .ok e₂ →
      e₂.index ≠ none ∧
      plan_blog e₂ (.error GenError.timeout) ("learning") 2 5
        ≠ .error .notReady) :=
  plan_blog_state_machine 8 true noFail (BlogPlanningRAG.init 8 true) sampleDF
    (.error GenError.timeout) ("learning") 2 5

/-- C4: a failed build leaves the prior session state, and hence the prior
working index, intact: the UI flow constructs a fresh engine per attempt and
assigns it into the session only after `build_index` returns without raising,
so on failure the handler returns the session unchanged. -/
theorem build_failure_preserves_session (fail : Nat → Nat → Bool) (b : Nat)
    (api : Option String) (df : DataFile) (s : SessionState) (err : RagError)
    (h : build_index fail (constructEngine b api) df = .error err) :
    buildButtonHandler fail b api df s = s := by
  unfold buildButtonHandler
  simp only [h]

/-- Witness for C4: building from the file with a missing title column fails
with `DataFormatError` and the session holding the sample engine is
untouched. -/
theorem build_failure_preserves_session_witness :
    build_index noFail (constructEngine 8 none) badDF = .error .dataFormat ∧
    buildButtonHandler noFail 8 none badDF ⟨some sampleEngine, true⟩
      = ⟨some sampleEngine, true⟩ :=
  ⟨by decide,
   build_failure_preserves_session noFail 8 none badDF ⟨some sampleEngine, true⟩
     .dataFormat (by decide)⟩

/-- C5: the generative backend is enabled exactly when the credential is
present at construction (absence is not an error, the engine is still
constructed), `build_index` preserves the flag, and with the flag off every
`plan_blog` call is independent of the generation outcome and any successful
plan deterministically takes the fallback path. -/
theorem use_gemini_credential_gating (b : Nat) (api : Option String)
    (fail : Nat → Nat → Bool) (df : DataFile) (e e₂ : BlogPlanningRAG)
    (gen gen₂ : Except GenError (String × String)) (topic : String)
    (k s : Nat) :
    ((constructEngine b api).use_gemini = true ↔ api ≠ none) ∧
    (build_index fail e df = .ok e₂ → e₂.use_gemini = e.use_gemini) ∧
    (e.use_gemini = false →
      plan_blog e gen topic k s = plan_blog e gen₂ topic k s ∧
      ∀ p, plan_blog e gen topic k s = .ok p →
        p.model = fallbackSentinel ∧ p.generated_plan = none ∧
        p.suggested_title = none) := by
  refine ⟨?_, ?_, ?_⟩
  · simp [constructEngine, BlogPlanningRAG.init, Option.isSome_iff_ne_none]
  · intro hb
    unfold build_index at hb
    cases hf : buildIndexFile fail e.embedding_batch_size df with
    | error e3 => simp [hf, Except.map] at hb
    | ok idx =>
      simp only [hf, Except.map] at hb
      injection hb with hb
      rw [← hb]
  · intro hg0
    constructor
    · unfold plan_blog
      cases hidx : e.index with
      | none => rfl
      | some idx =>
        simp only [hidx]
        cases hr : retrieve embed idx topic k with
        | error err => simp [hr]
        | ok rs => simp [hr, hg0]
    · intro p hp
      unfold plan_blog at hp
      cases hidx : e.index with
      | none => simp [hidx] at hp
      | some idx =>
        simp only [hidx] at hp
        cases hr : retrieve embed idx topic k with
        | error err => simp [hr] at hp
        | ok rs =>
          simp only [hr, hg0, Bool.false_eq_true, if_false] at hp
          injection hp with hp
          rw [← hp]
          exact ⟨rfl, rfl, rfl⟩

/-- Witness for C5: with the generation flag off, a successful backend
outcome and a timeout produce one and the same plan, and that plan is the
fallback one. -/
theorem use_gemini_credential_gating_witness :
    plan_blog ⟨8, false, some sampleIdx⟩ (.ok (("x"), ("y"))) ("learning") 2 5
      = plan_blog ⟨8, false, some sampleIdx⟩ (.error GenError.timeout)
          ("learning") 2 5 ∧
    ∀ p, plan_blog ⟨8, false, some sampleIdx⟩ (.ok (("x"), ("y")))
        ("learning") 2 5 = .ok p →
      p.model = fallbackSentinel ∧ p.generated_plan = none ∧
      p.suggested_title = none :=
  (use_gemini_credential_gating 8 none noFail sampleDF
    ⟨8, false, some sampleIdx⟩ ⟨8, false, some sampleIdx⟩ (.ok (("x"), ("y")))
    (.error GenError.timeout) ("learning") 2 5).2.2 rfl

/-- C6: for an index built from a data file and any k between 1 and the
corpus size, `search` returns exactly k results, every similarity lies
between 0 and 1, similarities are non-increasing along the sequence, and any
two results with equal similarity appear in ascending record id order. -/
theorem search_ranking_contract (fail : Nat → Nat → Bool) (b : Nat)
    (df : DataFile) (idx : Index) (q : List ℤ) (k : Nat)
    (hb : buildIndexFile fail b df = .ok idx)
    (hk1 : 1 ≤ k) (hkN : k ≤ idx.entries.length) :
    (search idx q k).length = k ∧
    (∀ r ∈ search idx q k, 0 ≤ r.similarity ∧ r.similarity ≤ 1) ∧
    (search idx q k).Pairwise (fun a r => r.similarity ≤ a.similarity ∧
      (a.similarity = r.similarity → a.record.id < r.record.id)) := by
  refine ⟨?_, ?_, ?_⟩
  · rw [search_length]
    omega
  · intro r hr
    obtain ⟨p, hp, hrp⟩ := mem_search hr
    rw [hrp]
    exact ⟨sim_nonneg q p.2, sim_le_one q p.2⟩
  · have hsorted := search_sorted idx q k
    have hids := search_ids_nodup q k hb
    have hne : (search idx q k).Pairwise
        fun a r => a.record.id ≠ r.record.id :=
      List.pairwise_map.mp hids
    have hcomb := List.pairwise_and_iff.mpr ⟨hsorted, hne⟩
    refine hcomb.imp ?_
    rintro a r ⟨hrank, hneq⟩
    rcases hrank with hlt | ⟨heq, hle⟩
    · exact ⟨le_of_lt hlt, fun he => absurd (he ▸ hlt) (lt_irrefl _)⟩
    · exact ⟨le_of_eq heq.symm, fun _ => lt_of_le_of_ne hle hneq⟩

/-- Witness for C6 at the sample index with k equal to 2 and the query
embedding of a concrete topic. -/
theorem search_ranking_contract_witness :
    (search sampleIdx (embed ("learning")) 2).length = 2 ∧
    (∀ r ∈ search sampleIdx (embed ("learning")) 2,
      0 ≤ r.similarity ∧ r.similarity ≤ 1) ∧
    (search sampleIdx (embed ("learning")) 2).Pairwise
      (fun a r => r.similarity ≤ a.similarity ∧
        (a.similarity = r.similarity → a.record.id < r.record.id)) :=
  search_ranking_contract noFail 8 sampleDF sampleIdx (embed ("learning")) 2
    (by decide) (by decide) (by decide)

/-- C7: requesting more references than the corpus holds is not an error:
`retrieve` succeeds and `search` clamps the result length to the record
count; in particular an index over an empty record set is queryable and
returns the empty sequence. -/
theorem search_clamps_to_corpus (fail : Nat → Nat → Bool) (b : Nat)
    (df : DataFile) (idx : Index) (topic : String) (k : Nat)
    (hb : buildIndexFile fail b df = .ok idx)
    (ht : strip topic ≠ "") (hk : idx.entries.length ≤ k) :
    retrieve embed idx topic k = .ok (search idx (embed topic) k) ∧
    (search idx (embed topic) k).length = idx.entries.length ∧
    (idx.entries = [] → search idx (embed topic) k = []) := by
  refine ⟨retrieve_built topic k hb ht, ?_, ?_⟩
  · rw [search_length]
    omega
  · intro h0
    simp [search, h0]

/-- Witness for C7: requesting 10 references from the three-record sample
index clamps to 3, and the index built over the empty corpus returns the
empty sequence. -/
theorem search_clamps_to_corpus_witness :
    (retrieve embed sampleIdx ("learning") 10
        = .ok (search sampleIdx (embed ("learning")) 10) ∧
      (search sampleIdx (embed ("learning")) 10).length
        = sampleIdx.entries.length ∧
      (sampleIdx.entries = [] → search sampleIdx (embed ("learning")) 10 = [])) ∧
    (retrieve embed ⟨[]⟩ ("learning") 10
        = .ok (search ⟨[]⟩ (embed ("learning")) 10) ∧
      (search ⟨[]⟩ (embed ("learning")) 10).length
        = (Index.mk []).entries.length ∧
      ((Index.mk []).entries = [] → search ⟨[]⟩ (embed ("learning")) 10 = [])) :=
  ⟨search_clamps_to_corpus noFail 8 sampleDF sampleIdx ("learning") 10
      (by decide) (by decide) (by decide),
   search_clamps_to_corpus noFail 8 emptyDF ⟨[]⟩ ("learning") 10
      (by decide) (by decide) (by decide)⟩

/-- C8: an empty or whitespace-only topic is rejected with
`InvalidQueryError` by `retrieve` under every embedding function, so the
Embedder is never consulted, and `plan_blog` on an indexed engine fails the
same way. -/
theorem retrieve_rejects_blank_topic (e e₂ : String → List ℤ) (idx : Index)
    (topic : String) (k s : Nat) (rag : BlogPlanningRAG)
    (gen : Except GenError (String × String)) (ht : strip topic = "") :
    retrieve e idx topic k = .error .invalidQuery ∧
    retrieve e idx topic k = retrieve e₂ idx topic k ∧
    (rag.index = some idx → plan_blog rag gen topic k s
      = .error .invalidQuery) := by
  have h1 : ∀ f : String → List ℤ,
      retrieve f idx topic k = .error .invalidQuery := by
    intro f
    unfold retrieve
    rw [if_pos (by simp [ht])]
  refine ⟨h1 e, by rw [h1 e, h1 e₂], fun hidx => ?_⟩
  unfold plan_blog
  simp only [hidx, h1 embed]

/-- Witness for C8: the whitespace topic is rejected on the sample index for
two different embedding functions and by the sample engine. -/
theorem retrieve_rejects_blank_topic_witness :
    retrieve embed sampleIdx ("   ") 2 = .error .invalidQuery ∧
    retrieve embed sampleIdx ("   ") 2
      = retrieve (fun _ => []) sampleIdx ("   ") 2 ∧
    (sampleEngine.index = some sampleIdx →
      plan_blog sampleEngine (.error GenError.timeout) ("   ") 2 5
        = .error .invalidQuery) :=
  retrieve_rejects_blank_topic embed (fun _ => []) sampleIdx ("   ") 2 5
    sampleEngine (.error GenError.timeout) (by decide)

/-- C9: building the index twice from the same data file with the same
configuration and failure behaviour yields the same engine, and hence
`retrieve` returns identical results for any fixed topic (the embedding
backend of the model is deterministic by construction). -/
theorem build_index_idempotent (fail : Nat → Nat → Bool)
    (e e₁ e₂ : BlogPlanningRAG) (df : DataFile) (topic : String) (k : Nat)
    (h₁ : build_index fail e df = .ok e₁)
    (h₂ : build_index fail e df = .ok e₂) :
    e₁ = e₂ ∧ ∀ i₁ i₂, e₁.index = some i₁ → e₂.index = some i₂ →
      retrieve embed i₁ topic k = retrieve embed i₂ topic k := by
  rw [h₁] at h₂
  injection h₂ with h₂
  subst h₂
  refine ⟨rfl, fun i₁ i₂ hi₁ hi₂ => ?_⟩
  rw [hi₁] at hi₂
  injection hi₂ with hi
  rw [hi]

/-- Witness for C9: two builds from the sample data file agree. -/
theorem build_index_idempotent_witness :
    (⟨8, true, some sampleIdx⟩ : BlogPlanningRAG) = ⟨8, true, some sampleIdx⟩ ∧
    ∀ i₁ i₂, (⟨8, true, some sampleIdx⟩ : BlogPlanningRAG).index = some i₁ →
      (⟨8, true, some sampleIdx⟩ : BlogPlanningRAG).index = some i₂ →
      retrieve embed i₁ ("learning") 2 = retrieve embed i₂ ("learning") 2 :=
  build_index_idempotent noFail (BlogPlanningRAG.init 8 true)
    ⟨8, true, some sampleIdx⟩ ⟨8, true, some sampleIdx⟩ sampleDF ("learning") 2
    (by decide) (by decide)

theorem plan_blog_no_invalidQuery {e : BlogPlanningRAG}
    {gen : Except GenError (String × String)} {topic : String} {k s : Nat}
    (ht : strip topic ≠ "") :
    plan_blog e gen topic k s ≠ .error .invalidQuery := by
  unfold plan_blog
  cases hidx : e.index with
  | none => simp
  | some idx =>
    cases hr : retrieve embed idx topic k with
    | error err =>
      have herr : err ≠ .invalidQuery := by
        unfold retrieve at hr
        rw [if_neg (by simpa using ht)] at hr
        split at hr
        · simp at hr
        · injection hr with hr
          rw [← hr]
          simp
      simp [hr, herr]
    | ok rs =>
      cases hg : (if e.use_gemini then gen
          else Except.error GenError.noCredential) with
      | ok pt => simp [hr, hg]
      | error ge => simp [hr, hg]

/-- C10: the Generate Plan handler never invokes `plan_blog` on a blank
topic: a topic that strips to the empty string produces the warning outcome,
independently of the engine and generation backend, and consequently the
`InvalidQueryError` branch of `plan_blog` is unreachable through the
handler. -/
theorem ui_guard_blocks_blank_topic (gen gen₂ : Except GenError (String × String))
    (e e₂ : BlogPlanningRAG) (topic : String) (k s : Nat) :
    (strip topic = "" →
      generateClickHandler gen e topic k s = .warned ∧
      generateClickHandler gen e topic k s
        = generateClickHandler gen₂ e₂ topic k s) ∧
    generateClickHandler gen e topic k s
      ≠ .planned (.error .invalidQuery) := by
  constructor
  · intro ht
    have hw : ∀ (g : Except GenError (String × String)) (rag : BlogPlanningRAG),
        generateClickHandler g rag topic k s = .warned := by
      intro g rag
      unfold generateClickHandler
      rw [if_pos]
      simp [ht]
    exact ⟨hw gen e, by rw [hw gen e, hw gen₂ e₂]⟩
  · unfold generateClickHandler
    split
    · simp
    · rename_i hcond
      have ht : strip topic ≠ "" := by
        intro h0
        exact hcond (by simp [h0])
      simpa using plan_blog_no_invalidQuery ht

/-- Witness for C10: a whitespace-only topic is warned about without
touching two different engines, and a concrete handler call is not the
invalid-query outcome. -/
theorem ui_guard_blocks_blank_topic_witness :
    (generateClickHandler (.error GenError.timeout) sampleEngine ("   ") 2 5
        = .warned ∧
      generateClickHandler (.error GenError.timeout) sampleEngine ("   ") 2 5
        = generateClickHandler (.ok (("a"), ("b"))) (BlogPlanningRAG.init 8 true)
            ("   ") 2 5) ∧
    generateClickHandler (.error GenError.timeout) sampleEngine ("   ") 2 5
      ≠ .planned (.error .invalidQuery) :=
  ⟨(ui_guard_blocks_blank_topic (.error GenError.timeout) (.ok (("a"), ("b")))
      sampleEngine (BlogPlanningRAG.init 8 true) ("   ") 2 5).1 (by decide),
   (ui_guard_blocks_blank_topic (.error GenError.timeout) (.ok (("a"), ("b")))
      sampleEngine (BlogPlanningRAG.init 8 true) ("   ") 2 5).2⟩

end SFL
